import Mathlib

/-!
Shallow embedding of the data-extraction pipeline
(`src/data_extraction/api_connector.py`, `src/data_extraction/excel_connector.py`).

The inventory simulator and metric deriver are embedded as executable Lean
functions.  Randomness (`random.randint`, `random.uniform`) is modelled by an
oracle `RandomSource` supplying, for each (day, product-index) pair, the values
the Python code would draw; range constraints on the draws are the predicate
`RandomSource.Valid`.  Machine floats are modelled by `ℚ` (the spec calls the
quantities decimals).
-/

namespace InvPipeline

/-- Python `int(q)`: truncation toward zero. -/
def pyIntTrunc (q : ℚ) : ℤ := if 0 ≤ q then ⌊q⌋ else ⌈q⌉

/-- A row of the products table (data model of the spec, section 3):
id, title, price, category; price is a positive decimal. -/
structure Product where
  id : Nat
  title : String
  price : ℚ
  category : String

/-- Modelled from the spec: the configuration constants
`RESTOCKING_FREQUENCY` (positive integer) and `DEMAND_VARIABILITY`
(fraction in [0,1)) are imported from `config`, a module not present under
`src/`; they are carried as parameters here. -/
structure Config where
  restockingFrequency : Nat
  demandVariability : ℚ

/-- The pseudo-random draws `simulate_inventory` makes, indexed by
(day, product index): `random.randint(1, 10)`, the
`random.uniform(1 - DEMAND_VARIABILITY, 1 + DEMAND_VARIABILITY)` noise factor,
`random.randint(50, 200)` fresh stock, `random.randint(50, 100)` restock,
and the `random.uniform(0.95, 1.05)` price multiplier. -/
structure RandomSource where
  baseDemand : Nat → Nat → ℤ
  noise : Nat → Nat → ℚ
  initStock : Nat → Nat → ℤ
  restockAmt : Nat → Nat → ℤ
  priceMul : Nat → Nat → ℚ

/-- The ranges of the random draws, as the Python `random` calls guarantee. -/
def RandomSource.Valid (cfg : Config) (rs : RandomSource) : Prop :=
  (∀ d i, 1 ≤ rs.baseDemand d i ∧ rs.baseDemand d i ≤ 10) ∧
  (∀ d i, 1 - cfg.demandVariability ≤ rs.noise d i ∧
    rs.noise d i ≤ 1 + cfg.demandVariability) ∧
  (∀ d i, 50 ≤ rs.initStock d i ∧ rs.initStock d i ≤ 200) ∧
  (∀ d i, 50 ≤ rs.restockAmt d i ∧ rs.restockAmt d i ≤ 100) ∧
  (∀ d i, (19 / 20 : ℚ) ≤ rs.priceMul d i ∧ rs.priceMul d i ≤ 21 / 20)

/-- One row of the simulated inventory table
(`inventory_record` dict, api_connector.py lines 62-74).  Dates are day
indices (the Python `date` is `current_date + timedelta(days=day)`, an
injective function of the day index).  The field `current_stock` records the
loop-local variable `current_stock` (the pre-demand stock) for specification
purposes; it is not a column of the emitted table. -/
structure InventoryRecord where
  date : Nat
  product_id : Nat
  product_name : String
  category : String
  daily_demand : ℤ
  current_stock : ℤ
  stock_level : ℤ
  restock_amount : ℤ
  restocked : Bool
  price : ℚ
  original_price : ℚ
  price_change_pct : ℚ

/-- The body of the inner loop of `simulate_inventory`
(api_connector.py lines 44-74): compute one record for `p` (the product at
index `i` of the products table) on day `day`, given the records
`inventory_data` produced so far.  On non-restock days the Python code never
adds to `new_stock`; adding the then-zero `restock_amount` is the same. -/
def simStep (cfg : Config) (rs : RandomSource) (day : Nat) (i : Nat)
    (p : Product) (inventory_data : List InventoryRecord) : InventoryRecord :=
  let base_demand : ℤ := rs.baseDemand day i
  let demand_variability : ℚ := rs.noise day i
  let daily_demand : ℤ := max 0 (pyIntTrunc ((base_demand : ℚ) * demand_variability))
  let current_stock : ℤ :=
    if day = 0 then rs.initStock day i
    else
      match inventory_data.find?
          (fun r => r.product_id == p.id && r.date == day - 1) with
      | some prev_record => prev_record.stock_level
      | none => rs.initStock day i
  let restock_amount : ℤ :=
    if day % cfg.restockingFrequency = 0 then rs.restockAmt day i else 0
  let restocked : Bool := decide (day % cfg.restockingFrequency = 0)
  let new_stock : ℤ := current_stock - daily_demand + restock_amount
  let price_change : ℚ := rs.priceMul day i
  let new_price : ℚ := p.price * price_change
  { date := day
    product_id := p.id
    product_name := p.title
    category := p.category
    daily_demand := daily_demand
    current_stock := current_stock
    stock_level := max 0 new_stock
    restock_amount := restock_amount
    restocked := restocked
    price := new_price
    original_price := p.price
    price_change_pct := (new_price - p.price) / p.price * 100 }

/-- The inner loop over `products_df.iterrows()` on a fixed day: `i` is the
index of the first product of `ps` in the products table; each record is
appended to the accumulated `inventory_data`. -/
def simDayAux (cfg : Config) (rs : RandomSource) (day : Nat) :
    Nat → List Product → List InventoryRecord → List InventoryRecord
  | _, [], acc => acc
  | i, p :: ps, acc =>
      simDayAux cfg rs day (i + 1) ps (acc ++ [simStep cfg rs day i p acc])

/-- The outer loop `for day in range(days)` of `simulate_inventory`:
`fuel` days remain, starting at day `day`. -/
def simLoop (cfg : Config) (rs : RandomSource) (products : List Product) :
    Nat → Nat → List InventoryRecord → List InventoryRecord
  | _, 0, acc => acc
  | day, fuel + 1, acc =>
      simLoop cfg rs products (day + 1) fuel (simDayAux cfg rs day 0 products acc)

/-- The full list `inventory_data` built by `simulate_inventory`'s loops
(api_connector.py lines 40-76). -/
def simulate_trace (cfg : Config) (rs : RandomSource) (products : List Product)
    (days : Nat) : List InventoryRecord :=
  simLoop cfg rs products 0 days []

/-- An inventory row after `_calculate_inventory_metrics`
(api_connector.py lines 106-127).  `days_of_inventory` is a decimal or
`+infinity`; the value `none` stands for `float('inf')`. -/
structure MetricRecord extends InventoryRecord where
  days_of_inventory : Option ℚ
  stockout_risk : Bool
  annualized_turnover : ℚ
  fill_rate : ℚ

/-- The comparison `days_of_inventory < 3` on a decimal-or-`+infinity` value:
`+infinity < 3` is false. -/
def doiLtThree : Option ℚ → Bool
  | none => false
  | some q => decide (q < 3)

/-- `_calculate_inventory_metrics`, per row (the pandas assignments on lines
108-125 are row-wise: `np.where` and `np.minimum` act elementwise). -/
def calculateMetrics (r : InventoryRecord) : MetricRecord :=
  let days_of_inventory : Option ℚ :=
    if r.daily_demand > 0 then some ((r.stock_level : ℚ) / (r.daily_demand : ℚ))
    else none
  { toInventoryRecord := r
    days_of_inventory := days_of_inventory
    stockout_risk := doiLtThree days_of_inventory
    annualized_turnover :=
      if r.stock_level > 0 then ((r.daily_demand : ℚ) * 365) / (r.stock_level : ℚ)
      else 0
    fill_rate :=
      if r.daily_demand > 0 then min 1 ((r.stock_level : ℚ) / (r.daily_demand : ℚ))
      else 1 }

/-- `simulate_inventory` (api_connector.py lines 35-83).  When the loops
produce no records at all, `pd.DataFrame([])` has no columns, so
`_calculate_inventory_metrics` raises `KeyError` on `df['daily_demand']`,
which the catch-all `except` turns into `None`; this is the `none` branch.
Otherwise the metric columns are added row-wise and the table is returned. -/
def simulate_inventory (cfg : Config) (rs : RandomSource)
    (products : List Product) (days : Nat) : Option (List MetricRecord) :=
  let inventory_data := simulate_trace cfg rs products days
  if inventory_data.isEmpty then none
  else some (inventory_data.map calculateMetrics)

/-! ### Closed-form description of the trace

`specRecord cfg rs p i d` is the record the simulator emits for the product
`p` sitting at index `i` of the products table on day `d`, assuming product
ids are pairwise distinct (so the `find?` lookup always finds the previous
day's record of the same product).  The per-product stock recurrence is
`stockRec`. -/

/-- `daily_demand` on day `d` for the product at index `i`. -/
def demandAt (rs : RandomSource) (d i : Nat) : ℤ :=
  max 0 (pyIntTrunc ((rs.baseDemand d i : ℚ) * rs.noise d i))

/-- `restock_amount` on day `d` for the product at index `i`. -/
def restockAt (cfg : Config) (rs : RandomSource) (d i : Nat) : ℤ :=
  if d % cfg.restockingFrequency = 0 then rs.restockAmt d i else 0

/-- The per-product `stock_level` recurrence: day 0 starts from the fresh
draw, later days from the previous day's `stock_level`; each day subtracts
demand, adds the restock, and clamps at 0. -/
def stockRec (cfg : Config) (rs : RandomSource) (i : Nat) : Nat → ℤ
  | 0 => max 0 (rs.initStock 0 i - demandAt rs 0 i + restockAt cfg rs 0 i)
  | d + 1 => max 0 (stockRec cfg rs i d - demandAt rs (d + 1) i
      + restockAt cfg rs (d + 1) i)

/-- The pre-demand stock used on day `d` for the product at index `i`. -/
def preStock (cfg : Config) (rs : RandomSource) (i : Nat) : Nat → ℤ
  | 0 => rs.initStock 0 i
  | d + 1 => stockRec cfg rs i d

/-- The record emitted for product `p` (at index `i`) on day `d`, in closed
form. -/
def specRecord (cfg : Config) (rs : RandomSource) (p : Product) (i d : Nat) :
    InventoryRecord :=
  { date := d
    product_id := p.id
    product_name := p.title
    category := p.category
    daily_demand := demandAt rs d i
    current_stock := preStock cfg rs i d
    stock_level := max 0 (preStock cfg rs i d - demandAt rs d i + restockAt cfg rs d i)
    restock_amount := restockAt cfg rs d i
    restocked := decide (d % cfg.restockingFrequency = 0)
    price := p.price * rs.priceMul d i
    original_price := p.price
    price_change_pct := (p.price * rs.priceMul d i - p.price) / p.price * 100 }

/-- One day's chunk of the closed-form trace, for the products `ps` starting
at index `i`. -/
def chunkAux (cfg : Config) (rs : RandomSource) (d : Nat) :
    Nat → List Product → List InventoryRecord
  | _, [] => []
  | i, p :: ps => specRecord cfg rs p i d :: chunkAux cfg rs d (i + 1) ps

/-- The closed-form trace: the day-0 chunk, then the day-1 chunk, and so on. -/
def traceSpec (cfg : Config) (rs : RandomSource) (products : List Product) :
    Nat → List InventoryRecord
  | 0 => []
  | d + 1 => traceSpec cfg rs products d ++ chunkAux cfg rs d 0 products

/-- The first record of `recs` for product id `pid` on day `d` (the `next`
generator-expression scan of api_connector.py line 50). -/
def recordAt (recs : List InventoryRecord) (pid d : Nat) : Option InventoryRecord :=
  recs.find? (fun r => r.product_id == pid && r.date == d)

/-! ### Row counts -/

lemma length_simDayAux (cfg : Config) (rs : RandomSource) (day : Nat) :
    ∀ (ps : List Product) (i : Nat) (acc : List InventoryRecord),
      (simDayAux cfg rs day i ps acc).length = acc.length + ps.length
  | [], i, acc => by simp [simDayAux]
  | p :: ps, i, acc => by
      rw [simDayAux, length_simDayAux cfg rs day ps]
      simp
      omega

lemma length_simLoop (cfg : Config) (rs : RandomSource) (products : List Product) :
    ∀ (fuel day : Nat) (acc : List InventoryRecord),
      (simLoop cfg rs products day fuel acc).length =
        acc.length + fuel * products.length
  | 0, day, acc => by simp [simLoop]
  | fuel + 1, day, acc => by
      rw [simLoop, length_simLoop cfg rs products fuel]
      rw [length_simDayAux]
      ring

lemma length_simulate_trace (cfg : Config) (rs : RandomSource)
    (products : List Product) (days : Nat) :
    (simulate_trace cfg rs products days).length = days * products.length := by
  rw [simulate_trace, length_simLoop]
  simp

/-! ### Every trace record is a `simStep` output -/

lemma simDayAux_forall (cfg : Config) (rs : RandomSource) (day : Nat)
    (P : InventoryRecord → Prop)
    (hstep : ∀ i p acc, P (simStep cfg rs day i p acc)) :
    ∀ (ps : List Product) (i : Nat) (acc : List InventoryRecord),
      (∀ r ∈ acc, P r) → ∀ r ∈ simDayAux cfg rs day i ps acc, P r
  | [], i, acc, hacc => by simpa [simDayAux] using hacc
  | p :: ps, i, acc, hacc => by
      rw [simDayAux]
      refine simDayAux_forall cfg rs day P hstep ps (i + 1) _ ?_
      intro r hr
      rcases List.mem_append.1 hr with h | h
      · exact hacc r h
      · rcases List.mem_singleton.1 h with rfl
        exact hstep i p acc

lemma simLoop_forall (cfg : Config) (rs : RandomSource) (products : List Product)
    (P : InventoryRecord → Prop)
    (hstep : ∀ day i p acc, P (simStep cfg rs day i p acc)) :
    ∀ (fuel day : Nat) (acc : List InventoryRecord),
      (∀ r ∈ acc, P r) → ∀ r ∈ simLoop cfg rs products day fuel acc, P r
  | 0, day, acc, hacc => by simpa [simLoop] using hacc
  | fuel + 1, day, acc, hacc => by
      rw [simLoop]
      exact simLoop_forall cfg rs products P hstep fuel (day + 1) _
        (simDayAux_forall cfg rs day P (hstep day) products 0 acc hacc)

lemma trace_forall (cfg : Config) (rs : RandomSource) (products : List Product)
    (days : Nat) (P : InventoryRecord → Prop)
    (hstep : ∀ day i p acc, P (simStep cfg rs day i p acc)) :
    ∀ r ∈ simulate_trace cfg rs products days, P r := by
  refine simLoop_forall cfg rs products P hstep days 0 [] ?_
  intro r hr
  simp at hr

/-! ### Per-record shape of a `simStep` output -/

lemma simStep_stock_level (cfg : Config) (rs : RandomSource) (day i : Nat)
    (p : Product) (acc : List InventoryRecord) :
    (simStep cfg rs day i p acc).stock_level =
      max 0 ((simStep cfg rs day i p acc).current_stock
        - (simStep cfg rs day i p acc).daily_demand
        + (simStep cfg rs day i p acc).restock_amount) := by
  simp [simStep]

lemma simStep_daily_demand_nonneg (cfg : Config) (rs : RandomSource)
    (day i : Nat) (p : Product) (acc : List InventoryRecord) :
    0 ≤ (simStep cfg rs day i p acc).daily_demand := by
  simp [simStep]

lemma simStep_stock_level_nonneg (cfg : Config) (rs : RandomSource)
    (day i : Nat) (p : Product) (acc : List InventoryRecord) :
    0 ≤ (simStep cfg rs day i p acc).stock_level := by
  rw [simStep_stock_level]
  exact le_max_left 0 _

lemma simStep_restocked (cfg : Config) (rs : RandomSource) (day i : Nat)
    (p : Product) (acc : List InventoryRecord) :
    (simStep cfg rs day i p acc).restocked =
      decide ((simStep cfg rs day i p acc).date % cfg.restockingFrequency = 0) := by
  simp [simStep]

lemma simStep_restock_amount (cfg : Config) (rs : RandomSource) (day i : Nat)
    (p : Product) (acc : List InventoryRecord) :
    (simStep cfg rs day i p acc).restock_amount =
      if day % cfg.restockingFrequency = 0 then rs.restockAmt day i else 0 := by
  simp [simStep]

/-! ### Dates and product ids of closed-form records -/

lemma specRecord_stock_level (cfg : Config) (rs : RandomSource) (p : Product)
    (i d : Nat) : (specRecord cfg rs p i d).stock_level = stockRec cfg rs i d := by
  cases d <;> rfl

lemma mem_chunkAux (cfg : Config) (rs : RandomSource) (d : Nat) :
    ∀ (ps : List Product) (i : Nat) (r : InventoryRecord),
      r ∈ chunkAux cfg rs d i ps → r.date = d ∧ r.product_id ∈ ps.map Product.id
  | [], i, r, hr => by simp [chunkAux] at hr
  | p :: ps, i, r, hr => by
      rw [chunkAux, List.mem_cons] at hr
      rcases hr with rfl | hr
      · exact ⟨rfl, by simp [specRecord]⟩
      · obtain ⟨h1, h2⟩ := mem_chunkAux cfg rs d ps (i + 1) r hr
        exact ⟨h1, by simp [h2]⟩

lemma mem_traceSpec_date (cfg : Config) (rs : RandomSource)
    (products : List Product) :
    ∀ (days : Nat) (r : InventoryRecord),
      r ∈ traceSpec cfg rs products days → r.date < days
  | days + 1, r, hr => by
      rw [traceSpec, List.mem_append] at hr
      rcases hr with hr | hr
      · exact Nat.lt_succ_of_lt (mem_traceSpec_date cfg rs products days r hr)
      · exact (mem_chunkAux cfg rs days products 0 r hr).1 ▸ Nat.lt_succ_self days

/-! ### `find?` against the closed form -/

lemma find?_chunkAux_wrong_day (cfg : Config) (rs : RandomSource)
    (pid d d' : Nat) (hne : d ≠ d') (ps : List Product) (i : Nat) :
    (chunkAux cfg rs d' i ps).find?
      (fun r => r.product_id == pid && r.date == d) = none := by
  rw [List.find?_eq_none]
  intro r hr
  have hd := (mem_chunkAux cfg rs d' ps i r hr).1
  simp [hd, Ne.symm hne]

lemma find?_chunkAux (cfg : Config) (rs : RandomSource) (d : Nat) :
    ∀ (ps : List Product) (i j : Nat) (hj : j < ps.length),
      (ps.map Product.id).Nodup →
      (chunkAux cfg rs d i ps).find?
          (fun r => r.product_id == (ps.get ⟨j, hj⟩).id && r.date == d) =
        some (specRecord cfg rs (ps.get ⟨j, hj⟩) (i + j) d)
  | p :: ps, i, 0, hj, hnd => by
      rw [chunkAux, List.find?_cons_of_pos]
      · simp [List.get]
      · simp [List.get, specRecord]
  | p :: ps, i, j + 1, hj, hnd => by
      have hj' : j < ps.length := by
        simpa [Nat.succ_lt_succ_iff] using hj
      have hget : (p :: ps).get ⟨j + 1, hj⟩ = ps.get ⟨j, hj'⟩ := rfl
      have hne : p.id ≠ (ps.get ⟨j, hj'⟩).id := by
        rw [List.map_cons, List.nodup_cons] at hnd
        intro h
        exact hnd.1 (h ▸ List.mem_map_of_mem Product.id (ps.get_mem j hj'))
      rw [chunkAux, List.find?_cons_of_neg]
      · rw [hget, find?_chunkAux cfg rs d ps (i + 1) j hj'
          (by rw [List.map_cons, List.nodup_cons] at hnd; exact hnd.2)]
        have : i + 1 + j = i + (j + 1) := by omega
        rw [this]
      · rw [hget]
        simp [specRecord]
        simpa [List.get_eq_getElem] using hne

lemma find?_traceSpec (cfg : Config) (rs : RandomSource)
    (products : List Product) (hnd : (products.map Product.id).Nodup)
    (j : Nat) (hj : j < products.length) :
    ∀ (days d : Nat), d < days →
      (traceSpec cfg rs products days).find?
          (fun r => r.product_id == (products.get ⟨j, hj⟩).id && r.date == d) =
        some (specRecord cfg rs (products.get ⟨j, hj⟩) j d)
  | days + 1, d, hd => by
      rw [traceSpec, List.find?_append]
      rcases Nat.lt_succ_iff_lt_or_eq.1 hd with hlt | rfl
      · rw [find?_traceSpec cfg rs products hnd j hj days d hlt]
        rfl
      · have hnone : (traceSpec cfg rs products d).find?
            (fun r => r.product_id == (products.get ⟨j, hj⟩).id && r.date == d) =
              none := by
          rw [List.find?_eq_none]
          intro r hr
          have := mem_traceSpec_date cfg rs products d r hr
          simp
          intro _
          omega
        rw [hnone, Option.none_or]
        have := find?_chunkAux cfg rs d products 0 j hj hnd
        rwa [Nat.zero_add] at this

/-! ### The simulator loop computes the closed form (distinct product ids) -/

lemma simStep_eq_specRecord_zero (cfg : Config) (rs : RandomSource) (i : Nat)
    (p : Product) (acc : List InventoryRecord) :
    simStep cfg rs 0 i p acc = specRecord cfg rs p i 0 := by
  simp [simStep, specRecord, preStock, demandAt, restockAt]

lemma simStep_eq_specRecord_succ (cfg : Config) (rs : RandomSource) (d i : Nat)
    (p : Product) (acc : List InventoryRecord)
    (hfind : acc.find? (fun r => r.product_id == p.id && r.date == d) =
      some (specRecord cfg rs p i d)) :
    simStep cfg rs (d + 1) i p acc = specRecord cfg rs p i (d + 1) := by
  rw [simStep]
  have hsub : d + 1 - 1 = d := rfl
  rw [hsub, hfind]
  simp only [Nat.succ_ne_zero, if_false, specRecord_stock_level]
  simp [specRecord, preStock, demandAt, restockAt]

lemma simDayAux_spec_zero (cfg : Config) (rs : RandomSource) :
    ∀ (ps : List Product) (i : Nat) (acc : List InventoryRecord),
      simDayAux cfg rs 0 i ps acc = acc ++ chunkAux cfg rs 0 i ps
  | [], i, acc => by simp [simDayAux, chunkAux]
  | p :: ps, i, acc => by
      rw [simDayAux, simDayAux_spec_zero cfg rs ps (i + 1),
        simStep_eq_specRecord_zero, chunkAux, List.append_assoc]
      rfl

lemma simDayAux_spec_succ (cfg : Config) (rs : RandomSource) (d : Nat) :
    ∀ (ps : List Product) (i : Nat) (acc : List InventoryRecord),
      (∀ (j : Nat) (hj : j < ps.length),
        acc.find? (fun r => r.product_id == (ps.get ⟨j, hj⟩).id && r.date == d) =
          some (specRecord cfg rs (ps.get ⟨j, hj⟩) (i + j) d)) →
      simDayAux cfg rs (d + 1) i ps acc = acc ++ chunkAux cfg rs (d + 1) i ps
  | [], i, acc, _ => by simp [simDayAux, chunkAux]
  | p :: ps, i, acc, H => by
      have h0 := H 0 (Nat.succ_pos ps.length)
      rw [show (p :: ps).get ⟨0, Nat.succ_pos ps.length⟩ = p from rfl,
        Nat.add_zero] at h0
      have hstep : simStep cfg rs (d + 1) i p acc = specRecord cfg rs p i (d + 1) :=
        simStep_eq_specRecord_succ cfg rs d i p acc h0
      rw [simDayAux, hstep]
      rw [simDayAux_spec_succ cfg rs d ps (i + 1)
        (acc ++ [specRecord cfg rs p i (d + 1)]) ?_]
      · rw [chunkAux, List.append_assoc]
        rfl
      · intro j hj
        have hj1 : j + 1 < (p :: ps).length := Nat.succ_lt_succ hj
        have := H (j + 1) hj1
        rw [show (p :: ps).get ⟨j + 1, hj1⟩ = ps.get ⟨j, hj⟩ from rfl] at this
        rw [List.find?_append, this]
        have harith : i + (j + 1) = i + 1 + j := by omega
        rw [harith]
        rfl

lemma simDay_spec (cfg : Config) (rs : RandomSource) (products : List Product)
    (hnd : (products.map Product.id).Nodup) (d : Nat) :
    simDayAux cfg rs d 0 products (traceSpec cfg rs products d) =
      traceSpec cfg rs products (d + 1) := by
  cases d with
  | zero =>
      rw [simDayAux_spec_zero]
      rfl
  | succ d' =>
      rw [simDayAux_spec_succ cfg rs d' products 0 (traceSpec cfg rs products (d' + 1)) ?_]
      · rfl
      · intro j hj
        have := find?_traceSpec cfg rs products hnd j hj (d' + 1) d' (Nat.lt_succ_self d')
        rwa [Nat.zero_add]

lemma simLoop_spec (cfg : Config) (rs : RandomSource) (products : List Product)
    (hnd : (products.map Product.id).Nodup) :
    ∀ (fuel day : Nat),
      simLoop cfg rs products day fuel (traceSpec cfg rs products day) =
        traceSpec cfg rs products (day + fuel)
  | 0, day => by simp [simLoop]
  | fuel + 1, day => by
      rw [simLoop, simDay_spec cfg rs products hnd day,
        simLoop_spec cfg rs products hnd fuel (day + 1)]
      have : day + 1 + fuel = day + (fuel + 1) := by omega
      rw [this]

/-- With pairwise-distinct product ids the simulator's trace is exactly the
closed form `traceSpec`. -/
theorem trace_eq_traceSpec (cfg : Config) (rs : RandomSource)
    (products : List Product) (hnd : (products.map Product.id).Nodup)
    (days : Nat) :
    simulate_trace cfg rs products days = traceSpec cfg rs products days := by
  have := simLoop_spec cfg rs products hnd days 0
  rw [Nat.zero_add] at this
  exact this

/-! ### Per-product contiguity of the closed form -/

lemma filter_chunkAux_not_mem (cfg : Config) (rs : RandomSource) (d pid : Nat) :
    ∀ (ps : List Product) (i : Nat), pid ∉ ps.map Product.id →
      (chunkAux cfg rs d i ps).filter (fun r => r.product_id == pid) = []
  | [], i, _ => rfl
  | p :: ps, i, hmem => by
      rw [List.map_cons, List.mem_cons, not_or] at hmem
      rw [chunkAux, List.filter_cons_of_neg, filter_chunkAux_not_mem cfg rs d pid
        ps (i + 1) hmem.2]
      simp [specRecord]
      exact fun h => hmem.1 h.symm

lemma filter_chunkAux (cfg : Config) (rs : RandomSource) (d : Nat) :
    ∀ (ps : List Product) (i j : Nat) (hj : j < ps.length),
      (ps.map Product.id).Nodup →
      (chunkAux cfg rs d i ps).filter
          (fun r => r.product_id == (ps.get ⟨j, hj⟩).id) =
        [specRecord cfg rs (ps.get ⟨j, hj⟩) (i + j) d]
  | p :: ps, i, 0, hj, hnd => by
      rw [List.map_cons, List.nodup_cons] at hnd
      rw [chunkAux, List.filter_cons_of_pos]
      · rw [show (p :: ps).get ⟨0, hj⟩ = p from rfl,
          filter_chunkAux_not_mem cfg rs d p.id ps (i + 1) hnd.1, Nat.add_zero]
      · simp [List.get, specRecord]
  | p :: ps, i, j + 1, hj, hnd => by
      have hj' : j < ps.length := by simpa [Nat.succ_lt_succ_iff] using hj
      have hget : (p :: ps).get ⟨j + 1, hj⟩ = ps.get ⟨j, hj'⟩ := rfl
      rw [List.map_cons, List.nodup_cons] at hnd
      have hne : p.id ≠ (ps.get ⟨j, hj'⟩).id := by
        intro h
        exact hnd.1 (h ▸ List.mem_map_of_mem Product.id (ps.get_mem j hj'))
      rw [chunkAux, hget, List.filter_cons_of_neg]
      · rw [filter_chunkAux cfg rs d ps (i + 1) j hj' hnd.2]
        have : i + 1 + j = i + (j + 1) := by omega
        rw [this]
      · simp [specRecord]
        simpa [List.get_eq_getElem] using hne

lemma filter_traceSpec_dates (cfg : Config) (rs : RandomSource)
    (products : List Product) (hnd : (products.map Product.id).Nodup)
    (j : Nat) (hj : j < products.length) :
    ∀ days : Nat,
      ((traceSpec cfg rs products days).filter
          (fun r => r.product_id == (products.get ⟨j, hj⟩).id)).map
        (fun r => r.date) = List.range days
  | 0 => rfl
  | days + 1 => by
      rw [traceSpec, List.filter_append, List.map_append,
        filter_traceSpec_dates cfg rs products hnd j hj days]
      have := filter_chunkAux cfg rs days products 0 j hj hnd
      rw [Nat.zero_add] at this
      rw [this, List.range_succ]
      rfl

/-! ## The claims -/

/-- C1: for every product and every day `d` with `0 < d < days`, the
pre-demand stock used to compute the day-`d` record (the loop variable
`current_stock`) equals the `stock_level` recorded for the same product on
day `d - 1`, and the records of a fixed product form a contiguous daily
sequence: exactly one record per day, on consecutive day indices
`0, 1, ..., days - 1`.  Product ids are assumed pairwise distinct, as the
lookup on api_connector.py line 50 identifies products by id. -/
theorem simulate_inventory_continuity (cfg : Config) (rs : RandomSource)
    (products : List Product) (days : Nat)
    (hnd : (products.map Product.id).Nodup)
    (i : Nat) (hi : i < products.length)
    (d : Nat) (hd0 : 0 < d) (hdn : d < days) :
    (∃ rd rp : InventoryRecord,
      recordAt (simulate_trace cfg rs products days)
          (products.get ⟨i, hi⟩).id d = some rd ∧
      recordAt (simulate_trace cfg rs products days)
          (products.get ⟨i, hi⟩).id (d - 1) = some rp ∧
      rd.current_stock = rp.stock_level) ∧
    ((simulate_trace cfg rs products days).filter
        (fun r => r.product_id == (products.get ⟨i, hi⟩).id)).map
      (fun r => r.date) = List.range days := by
  rw [trace_eq_traceSpec cfg rs products hnd days]
  constructor
  · refine ⟨specRecord cfg rs (products.get ⟨i, hi⟩) i d,
      specRecord cfg rs (products.get ⟨i, hi⟩) i (d - 1), ?_, ?_, ?_⟩
    · exact find?_traceSpec cfg rs products hnd i hi days d hdn
    · exact find?_traceSpec cfg rs products hnd i hi days (d - 1) (by omega)
    · rw [specRecord_stock_level]
      obtain ⟨d', rfl⟩ : ∃ d', d = d' + 1 := ⟨d - 1, by omega⟩
      simp [specRecord, preStock]
  · exact filter_traceSpec_dates cfg rs products hnd i hi days

/-- C2: for a non-empty product list and a positive day count the simulator
succeeds and returns exactly `days * |products|` rows (one per
(product, day) pair by C1's contiguity).  Positive prices are the data
model's precondition on `Product` (a zero price would raise
`ZeroDivisionError` in the Python `price_change_pct` computation). -/
theorem simulate_inventory_row_count (cfg : Config) (rs : RandomSource)
    (products : List Product) (days : Nat)
    (hp : products ≠ []) (hd : 0 < days)
    (hprice : ∀ p ∈ products, 0 < p.price) :
    ∃ l : List MetricRecord,
      simulate_inventory cfg rs products days = some l ∧
      l.length = days * products.length := by
  have hlen := length_simulate_trace cfg rs products days
  have hpos : 0 < days * products.length := by
    have : 0 < products.length := List.length_pos.2 hp
    exact Nat.mul_pos hd this
  have hne : (simulate_trace cfg rs products days).isEmpty = false := by
    rcases hcases : simulate_trace cfg rs products days with _ | ⟨r, rest⟩
    · rw [hcases] at hlen
      simp only [List.length_nil] at hlen
      exact absurd hlen.symm (Nat.ne_of_gt hpos)
    · rfl
  refine ⟨(simulate_trace cfg rs products days).map calculateMetrics, ?_, ?_⟩
  · rw [simulate_inventory]
    simp [hne]
  · rw [List.length_map, hlen]

lemma simulate_inventory_some (cfg : Config) (rs : RandomSource)
    (products : List Product) (days : Nat) (l : List MetricRecord)
    (hl : simulate_inventory cfg rs products days = some l) :
    l = (simulate_trace cfg rs products days).map calculateMetrics := by
  simp only [simulate_inventory] at hl
  by_cases h : (simulate_trace cfg rs products days).isEmpty
  · rw [if_pos h] at hl
    cases hl
  · rw [if_neg h] at hl
    exact (Option.some.inj hl).symm

/-- C3: in every simulator output row, `restocked` holds exactly when the
day index is a multiple of `RESTOCKING_FREQUENCY`; on restock days the
restock amount is an integer drawn from [50, 100] and is added to the stock
before the clamp at 0; on other days the restock amount is 0. -/
theorem simulate_inventory_restock_schedule (cfg : Config) (rs : RandomSource)
    (products : List Product) (days : Nat) (hv : rs.Valid cfg)
    (l : List MetricRecord)
    (hl : simulate_inventory cfg rs products days = some l) :
    ∀ m ∈ l,
      (m.restocked = true ↔ m.date % cfg.restockingFrequency = 0) ∧
      (m.restocked = true → 50 ≤ m.restock_amount ∧ m.restock_amount ≤ 100) ∧
      (m.restocked = false → m.restock_amount = 0) ∧
      m.stock_level = max 0 (m.current_stock - m.daily_demand + m.restock_amount) := by
  have hl' := simulate_inventory_some cfg rs products days l hl
  subst hl'
  intro m hm
  rw [List.mem_map] at hm
  obtain ⟨r, hr, rfl⟩ := hm
  exact trace_forall cfg rs products days
    (fun r =>
      (r.restocked = true ↔ r.date % cfg.restockingFrequency = 0) ∧
      (r.restocked = true → 50 ≤ r.restock_amount ∧ r.restock_amount ≤ 100) ∧
      (r.restocked = false → r.restock_amount = 0) ∧
      r.stock_level = max 0 (r.current_stock - r.daily_demand + r.restock_amount))
    (by
      intro day i p acc
      refine ⟨?_, ?_, ?_, simStep_stock_level cfg rs day i p acc⟩
      · simp [simStep]
      · intro hres
        rw [simStep_restocked] at hres
        rw [simStep_restock_amount]
        have hcond : day % cfg.restockingFrequency = 0 := by
          simpa [simStep] using hres
        rw [if_pos hcond]
        exact hv.2.2.2.1 day i
      · intro hres
        rw [simStep_restocked] at hres
        rw [simStep_restock_amount]
        have hcond : ¬ day % cfg.restockingFrequency = 0 := by
          simpa [simStep] using hres
        rw [if_neg hcond])
    r hr

/-- C4: every simulator output row has a non-negative `stock_level` and
`daily_demand`, and its `stock_level` is exactly
`max 0 (pre-demand stock - daily_demand + restock_amount)`: the clamp is
applied after demand and restock. -/
theorem simulate_inventory_nonneg (cfg : Config) (rs : RandomSource)
    (products : List Product) (days : Nat) (l : List MetricRecord)
    (hl : simulate_inventory cfg rs products days = some l) :
    ∀ m ∈ l,
      0 ≤ m.stock_level ∧ 0 ≤ m.daily_demand ∧
      m.stock_level = max 0 (m.current_stock - m.daily_demand + m.restock_amount) := by
  have hl' := simulate_inventory_some cfg rs products days l hl
  subst hl'
  intro m hm
  rw [List.mem_map] at hm
  obtain ⟨r, hr, rfl⟩ := hm
  exact trace_forall cfg rs products days
    (fun r => 0 ≤ r.stock_level ∧ 0 ≤ r.daily_demand ∧
      r.stock_level = max 0 (r.current_stock - r.daily_demand + r.restock_amount))
    (fun day i p acc =>
      ⟨simStep_stock_level_nonneg cfg rs day i p acc,
       simStep_daily_demand_nonneg cfg rs day i p acc,
       simStep_stock_level cfg rs day i p acc⟩)
    r hr

/-- C5: the metric deriver sets `days_of_inventory` to
`stock_level / daily_demand` when `daily_demand > 0` and to `+infinity`
(`none`) when `daily_demand = 0`, and `stockout_risk` holds exactly when
`days_of_inventory` is a finite value below 3; in particular a zero-demand
row is never flagged. -/
theorem calculateMetrics_doi_stockout (r : InventoryRecord) :
    (r.daily_demand > 0 →
      (calculateMetrics r).days_of_inventory =
        some ((r.stock_level : ℚ) / (r.daily_demand : ℚ))) ∧
    (r.daily_demand = 0 → (calculateMetrics r).days_of_inventory = none) ∧
    ((calculateMetrics r).stockout_risk = true ↔
      ∃ q : ℚ, (calculateMetrics r).days_of_inventory = some q ∧ q < 3) ∧
    (r.daily_demand = 0 → (calculateMetrics r).stockout_risk = false) := by
  by_cases h : r.daily_demand > 0
  · refine ⟨fun _ => ?_, fun h0 => absurd h0 (by omega), ?_, fun h0 => absurd h0 (by omega)⟩
    · simp [calculateMetrics, h]
    · simp [calculateMetrics, h, doiLtThree]
  · refine ⟨fun hpos => absurd hpos h, fun _ => ?_, ?_, fun _ => ?_⟩
    · simp [calculateMetrics, h]
    · simp [calculateMetrics, h, doiLtThree]
    · simp [calculateMetrics, h, doiLtThree]

/-- C6: the metric deriver sets `annualized_turnover` to
`daily_demand * 365 / stock_level` when `stock_level > 0` and to 0 when
`stock_level = 0`, and `fill_rate` to `min 1 (stock_level / daily_demand)`
when `daily_demand > 0` and to 1 otherwise; with the simulator's invariant
`0 ≤ stock_level` (C4) the fill rate always lies in [0, 1]. -/
theorem calculateMetrics_turnover_fill (r : InventoryRecord)
    (hs : 0 ≤ r.stock_level) :
    (r.stock_level > 0 →
      (calculateMetrics r).annualized_turnover =
        ((r.daily_demand : ℚ) * 365) / (r.stock_level : ℚ)) ∧
    (r.stock_level = 0 → (calculateMetrics r).annualized_turnover = 0) ∧
    (r.daily_demand > 0 →
      (calculateMetrics r).fill_rate =
        min 1 ((r.stock_level : ℚ) / (r.daily_demand : ℚ))) ∧
    (¬ r.daily_demand > 0 → (calculateMetrics r).fill_rate = 1) ∧
    0 ≤ (calculateMetrics r).fill_rate ∧ (calculateMetrics r).fill_rate ≤ 1 := by
  refine ⟨fun hpos => ?_, fun hzero => ?_, fun hdem => ?_, fun hdem => ?_, ?_, ?_⟩
  · simp [calculateMetrics, hpos]
  · simp [calculateMetrics, hzero]
  · simp [calculateMetrics, hdem]
  · simp [calculateMetrics, hdem]
  · by_cases hdem : r.daily_demand > 0
    · have hq : (0 : ℚ) ≤ (r.stock_level : ℚ) / (r.daily_demand : ℚ) := by
        apply div_nonneg
        · exact_mod_cast hs
        · have : (0 : ℤ) ≤ r.daily_demand := le_of_lt hdem
          exact_mod_cast this
      simp only [calculateMetrics, if_pos hdem]
      exact le_min (by norm_num) hq
    · simp [calculateMetrics, hdem]
  · by_cases hdem : r.daily_demand > 0
    · simp only [calculateMetrics, if_pos hdem]
      exact min_le_left 1 _
    · simp [calculateMetrics, hdem]

/-! ## Tables, quality validators and loaders

A source table is a list of column names and a list of rows of cells; a cell
is `none` when it is null (`df.isnull()`).  Cell values are decimals, which
is all the validators inspect. -/

structure Table where
  cols : List String
  rows : List (List (Option ℚ))

/-- A `log_data_quality_check` status string. -/
inductive CheckStatus where
  | PASS
  | WARNING
  | FAIL
deriving DecidableEq

/-- `df.isnull().sum().sum()`: the number of null cells. -/
def missingCellCount (df : Table) : Nat :=
  (df.rows.map (fun row => row.countP (fun c => c.isNone))).sum

/-- `df.isnull().sum().sum() / (df.shape[0] * df.shape[1])`.  On an empty
table the Python quotient is NaN, which compares false against the 0.05
threshold, giving PASS; here the quotient is 0, giving PASS as well. -/
def missingFraction (df : Table) : ℚ :=
  (missingCellCount df : ℚ) / ((df.rows.length * df.cols.length : Nat) : ℚ)

/-- The missing-data check shared by all validators
(api_connector.py lines 86-90, excel_connector.py lines 116-120). -/
def missingDataStatus (df : Table) : CheckStatus :=
  if missingFraction df > 5 / 100 then .WARNING else .PASS

/-- The outcome of a required-columns check: the status that is logged and
the list of missing columns named in the log message. -/
structure ColumnsCheck where
  status : CheckStatus
  missing_columns : List String

/-- The required-columns check (api_connector.py lines 92-97,
excel_connector.py lines 122-128). -/
def requiredColumnsCheck (required : List String) (df : Table) : ColumnsCheck :=
  let missing_columns := required.filter (fun col => decide (col ∉ df.cols))
  if missing_columns.isEmpty then ⟨.PASS, missing_columns⟩
  else ⟨.FAIL, missing_columns⟩

/-- The required columns of the Orders sheet (excel_connector.py line 123). -/
def ordersRequiredColumns : List String :=
  ["Order ID", "Order Date", "Ship Date", "Customer ID", "Product ID"]

/-- The required columns of the products table (api_connector.py line 92). -/
def productsRequiredColumns : List String :=
  ["id", "title", "price", "category"]

/-- `df[df['price'] <= 0].shape[0]` for the price column at index `j`
(null cells compare false and are not counted). -/
def invalidPriceCount (df : Table) (j : Nat) : Nat :=
  df.rows.countP (fun row =>
    match row.getD j none with
    | some v => decide (v ≤ 0)
    | none => false)

/-- The price validation of `_validate_products_data`
(api_connector.py lines 99-104): performed only when a `price` column
exists. -/
def priceStatus (df : Table) : Option CheckStatus :=
  match df.cols.findIdx? (fun c => c == "price") with
  | none => none
  | some j => some (if 0 < invalidPriceCount df j then .WARNING else .PASS)

/-- `_validate_orders_data` (excel_connector.py lines 111-128): the two
logged signals. -/
def validate_orders_data (df : Table) : CheckStatus × ColumnsCheck :=
  (missingDataStatus df, requiredColumnsCheck ordersRequiredColumns df)

/-- `_validate_products_data` (api_connector.py lines 85-104): the three
logged signals. -/
def validate_products_data (df : Table) :
    CheckStatus × ColumnsCheck × Option CheckStatus :=
  (missingDataStatus df, requiredColumnsCheck productsRequiredColumns df,
    priceStatus df)

/-! ## Loaders and aggregators

Each loader wraps its whole body (fetch/read, validation, transform) in
`try ... except Exception: return None`.  The body is modelled as a fallible
computation `Except String Table` whose `ok` value is the table the body
would return; the loader maps any raised exception to `none`. -/

/-- `get_products` (api_connector.py lines 13-22). -/
def get_products (body : Except String Table) : Option Table :=
  match body with
  | .ok products_df => some products_df
  | .error _ => none

/-- `get_categories` (api_connector.py lines 24-33). -/
def get_categories (body : Except String Table) : Option Table :=
  match body with
  | .ok categories_df => some categories_df
  | .error _ => none

/-- `load_orders_data` (excel_connector.py lines 42-63). -/
def load_orders_data (body : Except String Table) : Option Table :=
  match body with
  | .ok orders_df => some orders_df
  | .error _ => none

/-- `load_returns_data` (excel_connector.py lines 65-86). -/
def load_returns_data (body : Except String Table) : Option Table :=
  match body with
  | .ok returns_df => some returns_df
  | .error _ => none

/-- `load_people_data` (excel_connector.py lines 88-109). -/
def load_people_data (body : Except String Table) : Option Table :=
  match body with
  | .ok people_df => some people_df
  | .error _ => none

/-- A value of the API-side result mapping. -/
inductive ApiEntry (α β γ : Type) where
  | productsTable : α → ApiEntry α β γ
  | inventoryTable : β → ApiEntry α β γ
  | categoriesTable : γ → ApiEntry α β γ

/-- `get_all_api_data` (api_connector.py lines 129-144) as the association
list of dict entries in insertion order: `'products'` is inserted only when
`get_products` succeeded, `'inventory'` only when additionally
`simulate_inventory` succeeded on the fetched products, `'categories'` only
when `get_categories` succeeded. -/
def get_all_api_data {α β γ : Type} (products_df : Option α)
    (simulate : α → Option β) (categories_df : Option γ) :
    List (String × ApiEntry α β γ) :=
  (match products_df with
   | none => []
   | some p =>
       ("products", ApiEntry.productsTable p) ::
         (match simulate p with
          | none => []
          | some inv => [("inventory", ApiEntry.inventoryTable inv)])) ++
  (match categories_df with
   | none => []
   | some c => [("categories", ApiEntry.categoriesTable c)])

/-- `get_all_data` (excel_connector.py lines 198-209): all three keys are
always inserted, each bound to the possibly-absent loader result. -/
def get_all_data {τ : Type} (orders returns people : Option τ) :
    List (String × Option τ) :=
  [("orders", orders), ("returns", returns), ("people", people)]

/-- C10: with an empty product list or zero days the loops generate no
records, the metric derivation on the column-less empty table raises
`KeyError`, and the catch-all handler returns `None` (the `none` branch of
`simulate_inventory`), not a zero-row table. -/
theorem simulate_inventory_empty_none (cfg : Config) (rs : RandomSource)
    (products : List Product) (days : Nat)
    (h : products = [] ∨ days = 0) :
    simulate_trace cfg rs products days = [] ∧
    simulate_inventory cfg rs products days = none := by
  have hlen := length_simulate_trace cfg rs products days
  have hzero : (simulate_trace cfg rs products days).length = 0 := by
    rw [hlen]
    rcases h with rfl | rfl <;> simp
  have htrace : simulate_trace cfg rs products days = [] :=
    List.length_eq_zero.1 hzero
  refine ⟨htrace, ?_⟩
  rw [simulate_inventory, htrace]
  rfl

/-- C7: every loader maps a raised exception to the absent result `none`
with no partial data (a successful result is exactly the body's table), and
the failure goes no further; the simulator's internal failure (metric
derivation on an empty table) likewise becomes `none`. -/
theorem loaders_absorb_exceptions (e : String) :
    get_products (Except.error e) = none ∧
    get_categories (Except.error e) = none ∧
    load_orders_data (Except.error e) = none ∧
    load_returns_data (Except.error e) = none ∧
    load_people_data (Except.error e) = none ∧
    (∀ (cfg : Config) (rs : RandomSource) (products : List Product),
      simulate_inventory cfg rs products 0 = none) ∧
    (∀ (body : Except String Table) (df : Table),
      get_products body = some df → body = Except.ok df) := by
  refine ⟨rfl, rfl, rfl, rfl, rfl, fun cfg rs products => rfl, ?_⟩
  intro body df hdf
  cases body with
  | ok t =>
      cases hdf
      rfl
  | error err => cases hdf

/-- C8: the API-side aggregator inserts a key exactly when the matching
loader succeeded, so `'inventory'` can be present only when `'products'`
is; the spreadsheet-side aggregator always produces exactly the keys
`'orders'`, `'returns'`, `'people'`, each bound to a possibly-absent
value. -/
theorem aggregator_key_presence {α β γ τ : Type} (products_df : Option α)
    (simulate : α → Option β) (categories_df : Option γ)
    (orders returns people : Option τ) :
    ("products" ∈ (get_all_api_data products_df simulate categories_df).map
        Prod.fst ↔ products_df.isSome = true) ∧
    ("inventory" ∈ (get_all_api_data products_df simulate categories_df).map
        Prod.fst ↔ ∃ p, products_df = some p ∧ (simulate p).isSome = true) ∧
    ("categories" ∈ (get_all_api_data products_df simulate categories_df).map
        Prod.fst ↔ categories_df.isSome = true) ∧
    ("inventory" ∈ (get_all_api_data products_df simulate categories_df).map
        Prod.fst →
      "products" ∈ (get_all_api_data products_df simulate categories_df).map
        Prod.fst) ∧
    (get_all_data orders returns people).map Prod.fst =
      ["orders", "returns", "people"] := by
  refine ⟨?_, ?_, ?_, ?_, rfl⟩
  · rcases products_df with _ | p
    · rcases categories_df with _ | c <;> simp [get_all_api_data]
    · rcases hs : simulate p with _ | inv <;>
        rcases categories_df with _ | c <;> simp [get_all_api_data, hs]
  · rcases products_df with _ | p
    · rcases categories_df with _ | c <;> simp [get_all_api_data]
    · rcases hs : simulate p with _ | inv <;>
        rcases categories_df with _ | c <;> simp [get_all_api_data, hs]
  · rcases products_df with _ | p
    · rcases categories_df with _ | c <;> simp [get_all_api_data]
    · rcases hs : simulate p with _ | inv <;>
        rcases categories_df with _ | c <;> simp [get_all_api_data, hs]
  · rcases products_df with _ | p
    · rcases categories_df with _ | c <;> simp [get_all_api_data]
    · rcases hs : simulate p with _ | inv <;>
        rcases categories_df with _ | c <;> simp [get_all_api_data, hs]

/-- C9: the missing-data check warns exactly when the fraction of missing
cells exceeds 5% and passes otherwise; the required-columns check fails
exactly when some required column is absent, naming precisely the absent
columns, and passes otherwise; `Order ID` is among the orders table's
required columns. -/
theorem quality_check_signals (df : Table) :
    (missingDataStatus df = CheckStatus.WARNING ↔
      missingFraction df > 5 / 100) ∧
    (missingDataStatus df = CheckStatus.PASS ↔
      ¬ missingFraction df > 5 / 100) ∧
    (∀ required : List String,
      ((requiredColumnsCheck required df).status = CheckStatus.FAIL ↔
        ∃ c ∈ required, c ∉ df.cols) ∧
      ((requiredColumnsCheck required df).status = CheckStatus.PASS ↔
        ∀ c ∈ required, c ∈ df.cols) ∧
      (requiredColumnsCheck required df).missing_columns =
        required.filter (fun c => decide (c ∉ df.cols))) ∧
    validate_orders_data df =
      (missingDataStatus df, requiredColumnsCheck ordersRequiredColumns df) ∧
    "Order ID" ∈ ordersRequiredColumns := by
  refine ⟨?_, ?_, ?_, rfl, by simp [ordersRequiredColumns]⟩
  · rw [missingDataStatus]
    by_cases h : missingFraction df > 5 / 100 <;> simp [h]
  · rw [missingDataStatus]
    by_cases h : missingFraction df > 5 / 100 <;> simp [h]
  · intro required
    rw [requiredColumnsCheck]
    by_cases h : (required.filter (fun c => decide (c ∉ df.cols))).isEmpty
    · rw [List.isEmpty_iff, List.filter_eq_nil_iff] at h
      simp only [List.isEmpty_iff, List.filter_eq_nil_iff]
      rw [if_pos (by simpa using h)]
      constructor
      · simp
        intro c hc
        have := h c hc
        simpa using this
      · constructor
        · simp
          intro c hc
          have := h c hc
          simpa using this
        · rfl
    · rw [if_neg (by simpa using h)]
      rw [List.isEmpty_iff, List.filter_eq_nil_iff] at h
      push_neg at h
      obtain ⟨c, hc, hold⟩ := h
      constructor
      · simp
        exact ⟨c, hc, by simpa using hold⟩
      · constructor
        · simp
          exact ⟨c, hc, by simpa using hold⟩
        · rfl

/-! ## Concrete sample inputs (deterministic oracle) -/

/-- A sample configuration: restock every 2 days, no demand variability. -/
def cfg0 : Config := ⟨2, 0⟩

/-- A constant random oracle within all the documented ranges. -/
def rs0 : RandomSource :=
  ⟨fun _ _ => 3, fun _ _ => 1, fun _ _ => 100, fun _ _ => 60, fun _ _ => 1⟩

lemma rs0_valid : rs0.Valid cfg0 := by
  refine ⟨?_, ?_, ?_, ?_, ?_⟩ <;> intro d i <;> constructor <;>
    norm_num [rs0, cfg0]

/-- Two sample products with distinct ids and positive prices. -/
def products0 : List Product :=
  [⟨1, "alpha", 10, "catA"⟩, ⟨2, "beta", 5, "catA"⟩]

lemma products0_length_pos : 0 < products0.length := by decide

/-- The first sample product. -/
def p00 : Product := products0.get ⟨0, products0_length_pos⟩

/-- The simulator output on the sample inputs over two days. -/
def l0 : List MetricRecord :=
  (simulate_trace cfg0 rs0 products0 2).map calculateMetrics

lemma l0_length_pos : 0 < l0.length := by decide

lemma l0_eq : simulate_inventory cfg0 rs0 products0 2 = some l0 := rfl

/-- The first output row on the sample inputs. -/
def m00 : MetricRecord := l0.get ⟨0, l0_length_pos⟩

/-- A sample standalone inventory row. -/
def r0 : InventoryRecord :=
  ⟨0, 1, "alpha", "catA", 4, 100, 96, 0, false, 10, 10, 0⟩

/-! ## Witnesses -/

/-- Witness for C1: the sample run over three days, first product, day 1. -/
theorem simulate_inventory_continuity_witness :
    (products0.map Product.id).Nodup ∧
    ((∃ rd rp : InventoryRecord,
        recordAt (simulate_trace cfg0 rs0 products0 3) p00.id 1 = some rd ∧
        recordAt (simulate_trace cfg0 rs0 products0 3) p00.id (1 - 1) = some rp ∧
        rd.current_stock = rp.stock_level) ∧
      ((simulate_trace cfg0 rs0 products0 3).filter
          (fun r => r.product_id == p00.id)).map (fun r => r.date) =
        List.range 3) :=
  ⟨by decide,
   simulate_inventory_continuity cfg0 rs0 products0 3 (by decide) 0
     products0_length_pos 1 (by decide) (by decide)⟩

/-- Witness for C2: two products over three days give six rows. -/
theorem simulate_inventory_row_count_witness :
    products0 ≠ [] ∧ (0 : Nat) < 3 ∧
    ∃ l : List MetricRecord,
      simulate_inventory cfg0 rs0 products0 3 = some l ∧
      l.length = 3 * products0.length :=
  ⟨by simp [products0], by decide,
   simulate_inventory_row_count cfg0 rs0 products0 3 (by simp [products0])
     (by decide) (by decide)⟩

/-- Witness for C3: the restock facts at the first sample output row. -/
theorem simulate_inventory_restock_schedule_witness :
    rs0.Valid cfg0 ∧
    ((m00.restocked = true ↔ m00.date % cfg0.restockingFrequency = 0) ∧
     (m00.restocked = true → 50 ≤ m00.restock_amount ∧ m00.restock_amount ≤ 100) ∧
     (m00.restocked = false → m00.restock_amount = 0) ∧
     m00.stock_level =
       max 0 (m00.current_stock - m00.daily_demand + m00.restock_amount)) :=
  ⟨rs0_valid,
   simulate_inventory_restock_schedule cfg0 rs0 products0 2 rs0_valid l0 l0_eq
     m00 (l0.get_mem 0 l0_length_pos)⟩

/-- Witness for C4: non-negativity at the first sample output row. -/
theorem simulate_inventory_nonneg_witness :
    0 ≤ m00.stock_level ∧ 0 ≤ m00.daily_demand ∧
    m00.stock_level =
      max 0 (m00.current_stock - m00.daily_demand + m00.restock_amount) :=
  simulate_inventory_nonneg cfg0 rs0 products0 2 l0 l0_eq m00
    (l0.get_mem 0 l0_length_pos)

/-- Witness for C6: the deriver's formulas at the sample row `r0`. -/
theorem calculateMetrics_turnover_fill_witness :
    (0 : ℤ) ≤ r0.stock_level ∧
    ((r0.stock_level > 0 →
        (calculateMetrics r0).annualized_turnover =
          ((r0.daily_demand : ℚ) * 365) / (r0.stock_level : ℚ)) ∧
     (r0.stock_level = 0 → (calculateMetrics r0).annualized_turnover = 0) ∧
     (r0.daily_demand > 0 →
        (calculateMetrics r0).fill_rate =
          min 1 ((r0.stock_level : ℚ) / (r0.daily_demand : ℚ))) ∧
     (¬ r0.daily_demand > 0 → (calculateMetrics r0).fill_rate = 1) ∧
     0 ≤ (calculateMetrics r0).fill_rate ∧ (calculateMetrics r0).fill_rate ≤ 1) :=
  ⟨by decide, calculateMetrics_turnover_fill r0 (by decide)⟩

/-- Witness for C10: the empty product list over five days yields `none`. -/
theorem simulate_inventory_empty_none_witness :
    (([] : List Product) = [] ∨ (5 : Nat) = 0) ∧
    (simulate_trace cfg0 rs0 [] 5 = [] ∧
      simulate_inventory cfg0 rs0 [] 5 = none) :=
  ⟨Or.inl rfl, simulate_inventory_empty_none cfg0 rs0 [] 5 (Or.inl rfl)⟩

end InvPipeline
